import Mathlib

/-!
Verification of the sales-dashboard program (`src/app.py`).

Shallow embedding conventions:
* A `Row` is one record of the Dataset with columns `date`, `sales`,
  `customers`, `product`, `region`.  Dates are encoded as day ordinals
  (`0` = 2024-01-01 for the synthetic data; for externally loaded data the
  ordinal is an arbitrary natural number, only its total order matters).
  A `Dataset` is a `List Row`, matching the ordered pandas DataFrame.
* Python's `random.randint` / `random.choice` are modelled by an oracle
  `Rng` of value streams; `Rng.Valid` records exactly the ranges that
  `random.randint(-5000, 10000)` and `random.randint(-20, 50)` guarantee,
  and the category picks are `Fin 4` indices into the hardcoded lists.
* `load_data`'s `try/except` around the Google-Sheets fetch is modelled by
  an `attempts : Nat → Except String Dataset` oracle: attempt `n` either
  yields the fetched rows or the exception's message.  The code performs a
  single attempt (`attempts 0`); `Except.error` is the caught exception.
* Sidebar notifications (`st.sidebar.success/warning/error/info`) are
  modelled as an emitted list of `Msg` values.
* Python float division in `avg_order` is modelled exactly over `ℚ`.
-/

/-- One record of the Dataset: columns `date, sales, customers, product, region`
of `app.py` (post numeric coercion, so `sales`/`customers` are numbers). -/
structure Row where
  date : Nat
  sales : Int
  customers : Int
  product : String
  region : String
  deriving DecidableEq, Repr

/-- A Dataset is an ordered table of rows, as a pandas DataFrame is. -/
abbrev Dataset : Type := List Row

/-- The hardcoded product categories of `create_demo_data` (app.py line 63). -/
def products : List String := ["Product A", "Product B", "Product C", "Product D"]

/-- The hardcoded region categories of `create_demo_data` (app.py line 64). -/
def regions : List String := ["Tashkent", "Samarkand", "Bukhara", "Fergana"]

/-- Oracle for the random draws of `create_demo_data`: one stream per column. -/
structure Rng where
  salesNoise : Nat → Int
  custNoise : Nat → Int
  prodPick : Nat → Fin 4
  regPick : Nat → Fin 4

/-- The ranges Python guarantees: `random.randint(-5000, 10000)` and
`random.randint(-20, 50)` are inclusive on both ends. -/
def Rng.Valid (g : Rng) : Prop :=
  (∀ i, -5000 ≤ g.salesNoise i ∧ g.salesNoise i ≤ 10000) ∧
  (∀ i, -20 ≤ g.custNoise i ∧ g.custNoise i ≤ 50)

/-- Number of days of `pd.date_range('2024-01-01', '2024-12-31', freq='D')`:
2024 is a leap year, so the range holds 366 calendar days. -/
def numDemoDays : Nat := 366

/-- `create_demo_data` (app.py lines 55-67): one row per calendar day of 2024,
day ordinal `i` carrying `sales = 50000 + i*100 + randint(-5000,10000)`,
`customers = 100 + randint(-20,50)`, and random picks from the two
4-element category lists. -/
def create_demo_data (g : Rng) : Dataset :=
  (List.range numDemoDays).map (fun i =>
    { date := i
      sales := 50000 + (i : Int) * 100 + g.salesNoise i
      customers := 100 + g.custNoise i
      product := products.get ⟨(g.prodPick i : Nat), by have h := (g.prodPick i).isLt; simp only [products, List.length]; omega⟩
      region := regions.get ⟨(g.regPick i : Nat), by have h := (g.regPick i).isLt; simp only [regions, List.length]; omega⟩ })

/-- A sidebar notification emitted by `load_data`. -/
inductive Msg where
  | success (s : String)
  | warning (s : String)
  | error (s : String)
  | info (s : String)
  deriving DecidableEq, Repr

/-- `load_data` (app.py lines 16-52): one fetch attempt against Google Sheets;
on success return the fetched rows with a success notification, on any caught
exception emit a warning, the exception text and an info notification and fall
back to `create_demo_data`.  Only `attempts 0` is consulted: no retry. -/
def load_data (g : Rng) (attempts : Nat → Except String Dataset) : Dataset × List Msg :=
  match attempts 0 with
  | Except.ok df => (df, [Msg.success "Google Sheets dan yuklandi!"])
  | Except.error e =>
      (create_demo_data g,
       [Msg.warning "Google Sheets ishlamadi", Msg.error e,
        Msg.info "Demo malumot bilan ishlayapman"])

/-- Month bucket of a 2024 day ordinal (the derived `month` column,
`df['date'].dt.to_period('M')`, app.py line 86), via the cumulative day
counts of the leap year 2024. -/
def monthOf (i : Nat) : Nat :=
  if i < 31 then 1 else if i < 60 then 2 else if i < 91 then 3
  else if i < 121 then 4 else if i < 152 then 5 else if i < 182 then 6
  else if i < 213 then 7 else if i < 244 then 8 else if i < 274 then 9
  else if i < 305 then 10 else if i < 335 then 11 else 12

/-- The date filter (app.py lines 104-105): when the picker returned a complete
pair `[s, e]` keep the rows with `s ≤ date ≤ e` (inclusive both ends);
any other shape (a single endpoint) leaves the Dataset unfiltered. -/
def applyDateFilter (dateRange : List Nat) (df : Dataset) : Dataset :=
  match dateRange with
  | [s, e] => df.filter (fun r => decide (s ≤ r.date) && decide (r.date ≤ e))
  | _ => df

/-- The region filter (app.py lines 111-112): keep rows whose `region` equals
the selection, unless the sentinel option `Barchasi` ("all") is selected. -/
def applyRegionFilter (sel : String) (df : Dataset) : Dataset :=
  if sel = "Barchasi" then df else df.filter (fun r => decide (r.region = sel))

/-- `df['sales'].sum()` (app.py line 122). -/
def totalSales (df : Dataset) : Int := (df.map Row.sales).sum

/-- `df['customers'].sum()` (app.py line 130). -/
def totalCustomers (df : Dataset) : Int := (df.map Row.customers).sum

/-- `avg_order = total_sales / total_customers if total_customers > 0 else 0`
(app.py line 134), with Python's float division modelled exactly over `ℚ`. -/
def avg_order (df : Dataset) : ℚ :=
  if 0 < totalCustomers df then (totalSales df : ℚ) / (totalCustomers df : ℚ) else 0

/-- The distinct keys of a grouping, in first-occurrence order
(`df.groupby(col)` group labels). -/
def groupKeys {K : Type} [DecidableEq K] (key : Row → K) (df : Dataset) : List K :=
  (df.map key).dedup

/-- `df.groupby(col)['sales'].sum()` (app.py lines 146, 161, 178, 194):
one `(key, summed sales)` pair per distinct key of the grouping column. -/
def groupBySum {K : Type} [DecidableEq K] (key : Row → K) (df : Dataset) : List (K × Int) :=
  (groupKeys key df).map (fun k => (k, totalSales (df.filter (fun r => decide (key r = k)))))

/-- Comparison used by `sort_values(ascending=True)` on the summed sales. -/
def bySales (a b : String × Int) : Prop := a.2 ≤ b.2

instance : DecidableRel bySales := fun a b => inferInstanceAs (Decidable (a.2 ≤ b.2))

instance : IsTotal (String × Int) bySales := ⟨fun a b => Int.le_total a.2 b.2⟩

instance : IsTrans (String × Int) bySales := ⟨fun _ _ _ h h' => Int.le_trans h h'⟩

/-- `df.groupby('region')['sales'].sum().sort_values(ascending=True)`
(app.py line 178): region group sums sorted ascending by the summed value
(a stable sort, as pandas' is). -/
def region_sales (df : Dataset) : List (String × Int) :=
  (groupBySum Row.region df).insertionSort bySales

/-- A fixed zero-noise oracle, used to evaluate the model on concrete runs. -/
def rng0 : Rng :=
  { salesNoise := fun _ => 0, custNoise := fun _ => 0
    prodPick := fun _ => 0, regPick := fun _ => 0 }

theorem rng0_valid : Rng.Valid rng0 := by
  constructor <;> intro i <;> constructor <;> simp [rng0]

/-! ## Helper lemmas -/

theorem sum_map_add_int {K : Type} (ks : List K) (f g : K → Int) :
    (ks.map fun k => f k + g k).sum = (ks.map f).sum + (ks.map g).sum := by
  induction ks with
  | nil => simp
  | cons k ks ih => simp only [List.map_cons, List.sum_cons, ih]; ring

theorem sum_map_ite_zero {K : Type} [DecidableEq K] (ks : List K) (k0 : K) (s : Int)
    (h : k0 ∉ ks) : (ks.map (fun k => if k0 = k then s else 0)).sum = 0 := by
  induction ks with
  | nil => simp
  | cons k ks ih =>
      rw [List.mem_cons, not_or] at h
      simp [h.1, ih h.2]

theorem sum_map_ite_single {K : Type} [DecidableEq K] (ks : List K) (k0 : K) (s : Int)
    (hnd : ks.Nodup) (hmem : k0 ∈ ks) :
    (ks.map (fun k => if k0 = k then s else 0)).sum = s := by
  induction ks with
  | nil => cases hmem
  | cons k ks ih =>
      rcases List.nodup_cons.mp hnd with ⟨hk, hnd'⟩
      by_cases hk0 : k0 = k
      · subst hk0
        simp [sum_map_ite_zero ks k0 s hk]
      · have hmem' : k0 ∈ ks := by
          rcases List.mem_cons.mp hmem with h | h
          · exact absurd h hk0
          · exact h
        simp [hk0, ih hnd' hmem']

theorem groupSum_partition_aux {K : Type} [DecidableEq K] (key : Row → K) (ks : List K)
    (hnd : ks.Nodup) :
    ∀ df : Dataset, (∀ r ∈ df, key r ∈ ks) →
      (ks.map (fun k => totalSales (df.filter (fun r => decide (key r = k))))).sum
        = totalSales df := by
  intro df
  induction df with
  | nil =>
      intro _
      simp [totalSales]
  | cons r rows ih =>
      intro hcov
      have hr : key r ∈ ks := hcov r (List.mem_cons_self r rows)
      have hcov' : ∀ x ∈ rows, key x ∈ ks := fun x hx => hcov x (List.mem_cons_of_mem r hx)
      have hstep : ∀ k : K,
          totalSales ((r :: rows).filter (fun x => decide (key x = k)))
            = (if key r = k then r.sales else 0)
              + totalSales (rows.filter (fun x => decide (key x = k))) := by
        intro k
        by_cases h : key r = k
        · simp [List.filter_cons, h, totalSales]
        · simp [List.filter_cons, h, totalSales]
      calc (ks.map fun k => totalSales ((r :: rows).filter (fun x => decide (key x = k)))).sum
          = (ks.map fun k => (if key r = k then r.sales else 0)
              + totalSales (rows.filter (fun x => decide (key x = k)))).sum := by
            simp only [hstep]
        _ = (ks.map fun k => if key r = k then r.sales else 0).sum
              + (ks.map fun k => totalSales (rows.filter (fun x => decide (key x = k)))).sum :=
            sum_map_add_int ks _ _
        _ = r.sales + totalSales rows := by
            rw [sum_map_ite_single ks (key r) r.sales hnd hr, ih hcov']
        _ = totalSales (r :: rows) := by simp [totalSales]

theorem groupBySum_partition {K : Type} [DecidableEq K] (key : Row → K) (df : Dataset) :
    ((groupBySum key df).map Prod.snd).sum = totalSales df := by
  have hnd : (groupKeys key df).Nodup := List.nodup_dedup _
  have hcov : ∀ r ∈ df, key r ∈ groupKeys key df := by
    intro r hr
    exact List.mem_dedup.mpr (List.mem_map_of_mem key hr)
  have := groupSum_partition_aux key (groupKeys key df) hnd df hcov
  simpa [groupBySum, List.map_map, Function.comp] using this

theorem customers_sum_nonneg (l : Dataset) (h : ∀ r ∈ l, 0 ≤ r.customers) :
    0 ≤ totalCustomers l := by
  induction l with
  | nil => simp [totalCustomers]
  | cons r rows ih =>
      have hr := h r (List.mem_cons_self r rows)
      have ht := ih (fun x hx => h x (List.mem_cons_of_mem r hx))
      simp only [totalCustomers, List.map_cons, List.sum_cons] at *
      omega

theorem customers_sum_pos (l : Dataset) (h : ∀ r ∈ l, 0 < r.customers) (hne : l ≠ []) :
    0 < totalCustomers l := by
  cases l with
  | nil => exact absurd rfl hne
  | cons r rows =>
      have hr := h r (List.mem_cons_self r rows)
      have ht := customers_sum_nonneg rows
        (fun x hx => le_of_lt (h x (List.mem_cons_of_mem r hx)))
      simp only [totalCustomers, List.map_cons, List.sum_cons] at *
      omega

/-! ## Concrete rows used as evaluation inputs -/

/-- A concrete row used to evaluate the filter theorems on an actual input. -/
def row1 : Row :=
  { date := 0, sales := 100, customers := 10, product := "Product A", region := "Tashkent" }

/-- A concrete row with a negative customer count, as a coerced sheet row can carry. -/
def rowNeg : Row :=
  { date := 0, sales := 100, customers := -5, product := "Product A", region := "Tashkent" }

/-! ## Claims -/

/-- C1 (counterexample): the claim says the fallback Dataset has exactly 365
rows, but on a failed acquisition (here: missing credentials) the synthetic
Dataset covers the leap year 2024 and has 366 rows, not 365. -/
theorem c1_counterexample :
    (load_data rng0 (fun _ => Except.error "missing credentials")).1.length ≠ 365 := by
  simp [load_data, create_demo_data, numDemoDays]

/-- C1 (amended): for every failed acquisition attempt (any malformed or
absent credentials error), `load_data` returns the synthetic Dataset and its
row count is exactly 366 (the configured 2024-01-01..2024-12-31 range is a
leap-year range); being a total function, it never raises. -/
theorem c1_amended (g : Rng) (attempts : Nat → Except String Dataset) (e : String)
    (h : attempts 0 = Except.error e) :
    (load_data g attempts).1.length = 366 := by
  simp [load_data, h, create_demo_data, numDemoDays]

/-- C1 witness: the amended theorem evaluated at a concrete failing attempt. -/
theorem c1_amended_witness :
    (load_data rng0 (fun _ => Except.error "no creds")).1.length = 366 :=
  c1_amended rng0 (fun _ => Except.error "no creds") "no creds" rfl

/-- C2: the synthetic generator yields exactly one row per calendar day of
2024-01-01..2024-12-31 (366 days), and the row of day index `i` has
`sales = 50000 + 100*i + noise` with noise in `[-5000, 10000]`,
`customers = 100 + noise` with noise in `[-20, 50]`, and `product`/`region`
drawn from the fixed 4-element category lists. -/
theorem c2_demo_shape (g : Rng) (hg : g.Valid) :
    (create_demo_data g).length = 366 ∧
    ∀ i, (hi : i < (create_demo_data g).length) →
      ((create_demo_data g).get ⟨i, hi⟩).date = i ∧
      ((create_demo_data g).get ⟨i, hi⟩).sales = 50000 + 100 * (i : Int) + g.salesNoise i ∧
      -5000 ≤ g.salesNoise i ∧ g.salesNoise i ≤ 10000 ∧
      ((create_demo_data g).get ⟨i, hi⟩).customers = 100 + g.custNoise i ∧
      -20 ≤ g.custNoise i ∧ g.custNoise i ≤ 50 ∧
      ((create_demo_data g).get ⟨i, hi⟩).product ∈ products ∧
      ((create_demo_data g).get ⟨i, hi⟩).region ∈ regions := by
  constructor
  · simp [create_demo_data, numDemoDays]
  · intro i hi
    simp only [create_demo_data, List.get_eq_getElem, List.getElem_map, List.getElem_range]
    refine ⟨trivial, by ring, (hg.1 i).1, (hg.1 i).2, trivial, (hg.2 i).1, (hg.2 i).2, ?_, ?_⟩
    · apply List.getElem_mem
    · apply List.getElem_mem

/-- C2 witness: the shape theorem evaluated at the concrete zero-noise oracle. -/
theorem c2_demo_shape_witness :
    Rng.Valid rng0 ∧ (create_demo_data rng0).length = 366 :=
  ⟨rng0_valid, (c2_demo_shape rng0 rng0_valid).1⟩

/-- C3: with a complete range `[s, e]` (s ≤ e) the date filter keeps exactly
the rows whose date `d` satisfies `s ≤ d ≤ e`, inclusive on both ends; with an
incomplete range (a single endpoint, or none) the Dataset is unfiltered. -/
theorem c3_date_filter (df : Dataset) (s e : Nat) (_hse : s ≤ e) :
    (∀ r : Row, r ∈ applyDateFilter [s, e] df ↔ (r ∈ df ∧ s ≤ r.date ∧ r.date ≤ e)) ∧
    (∀ d : Nat, applyDateFilter [d] df = df) ∧
    applyDateFilter [] df = df := by
  refine ⟨?_, fun d => rfl, rfl⟩
  intro r
  simp [applyDateFilter, List.mem_filter, and_assoc]

/-- C3 witness: the date-filter theorem evaluated at a one-row Dataset. -/
theorem c3_date_filter_witness :
    (0 : Nat) ≤ 1 ∧
    (row1 ∈ applyDateFilter [0, 1] [row1] ↔ (row1 ∈ [row1] ∧ 0 ≤ row1.date ∧ row1.date ≤ 1)) :=
  ⟨Nat.zero_le 1, (c3_date_filter [row1] 0 1 (Nat.zero_le 1)).1 row1⟩

/-- C4: with the sentinel `Barchasi` the region filter returns the Dataset
unchanged; with a specific region it keeps exactly the rows of that region;
with a region absent from the data it returns zero rows (and, being a total
function, raises no error). -/
theorem c4_region_filter (df : Dataset) (sel : String) :
    (sel = "Barchasi" → applyRegionFilter sel df = df) ∧
    (sel ≠ "Barchasi" → ∀ r : Row, r ∈ applyRegionFilter sel df ↔ (r ∈ df ∧ r.region = sel)) ∧
    (sel ≠ "Barchasi" → (∀ r ∈ df, r.region ≠ sel) → applyRegionFilter sel df = []) := by
  refine ⟨fun h => by simp [applyRegionFilter, h], ?_, ?_⟩
  · intro h r
    simp [applyRegionFilter, h, List.mem_filter]
  · intro h habs
    rw [applyRegionFilter, if_neg h]
    rw [List.filter_eq_nil_iff]
    intro r hr
    simpa using habs r hr

/-- C4 witness: the region-filter theorem evaluated at a one-row Dataset with
the sentinel, a present region, and an absent region. -/
theorem c4_region_filter_witness :
    applyRegionFilter "Barchasi" [row1] = [row1] ∧
    (row1 ∈ applyRegionFilter "Tashkent" [row1] ↔ (row1 ∈ [row1] ∧ row1.region = "Tashkent")) ∧
    applyRegionFilter "Fergana" [row1] = [] :=
  ⟨(c4_region_filter [row1] "Barchasi").1 rfl,
   (c4_region_filter [row1] "Tashkent").2.1 (by decide) row1,
   (c4_region_filter [row1] "Fergana").2.2 (by decide) (by decide)⟩

/-- C5: each of the four groupings (by date, by product, by region, by month)
partitions the filtered Dataset exactly: the sum over all groups of that
group's summed sales equals the ungrouped total sales. -/
theorem c5_group_partition (df : Dataset) :
    ((groupBySum Row.date df).map Prod.snd).sum = totalSales df ∧
    ((groupBySum Row.product df).map Prod.snd).sum = totalSales df ∧
    ((groupBySum Row.region df).map Prod.snd).sum = totalSales df ∧
    ((groupBySum (fun r => monthOf r.date) df).map Prod.snd).sum = totalSales df :=
  ⟨groupBySum_partition Row.date df, groupBySum_partition Row.product df,
   groupBySum_partition Row.region df, groupBySum_partition (fun r => monthOf r.date) df⟩

/-- C6: the average-order-value equals total sales divided by total customers
when the customer total is positive, equals zero when the customer total is
zero, and (being a total function over ℚ) never raises a division error. -/
theorem c6_avg_order (df : Dataset) :
    (totalCustomers df = 0 → avg_order df = 0) ∧
    (0 < totalCustomers df →
      avg_order df = (totalSales df : ℚ) / (totalCustomers df : ℚ)) := by
  constructor
  · intro h
    simp [avg_order, h]
  · intro h
    rw [avg_order, if_pos h]

/-- C6 witness: on the empty Dataset the customer total is zero and the
average order value is zero; on a one-row Dataset the division branch runs. -/
theorem c6_avg_order_witness :
    (totalCustomers ([] : Dataset) = 0 ∧ avg_order ([] : Dataset) = 0) ∧
    (0 < totalCustomers [row1] ∧
      avg_order [row1] = (totalSales [row1] : ℚ) / (totalCustomers [row1] : ℚ)) :=
  ⟨⟨rfl, (c6_avg_order []).1 rfl⟩,
   ⟨by decide, (c6_avg_order [row1]).2 (by decide)⟩⟩

/-- C7: the region-grouped aggregate is sorted ascending by the summed sales
values, and is a permutation of the unsorted region group sums. -/
theorem c7_region_sorted (df : Dataset) :
    (region_sales df).Sorted bySales ∧ (region_sales df).Perm (groupBySum Row.region df) :=
  ⟨List.sorted_insertionSort bySales _, List.perm_insertionSort bySales _⟩

/-- C8: on any failed acquisition attempt `load_data` catches the error,
returns the synthetic Dataset, emits a warning and the failure reason, and
consults only the first attempt (no retry); as a total function it never
propagates an exception. -/
theorem c8_load_failure (g : Rng) (attempts : Nat → Except String Dataset) (e : String)
    (h : attempts 0 = Except.error e) :
    (load_data g attempts).1 = create_demo_data g ∧
    Msg.warning "Google Sheets ishlamadi" ∈ (load_data g attempts).2 ∧
    Msg.error e ∈ (load_data g attempts).2 ∧
    (∀ attempts2 : Nat → Except String Dataset,
      attempts2 0 = attempts 0 → load_data g attempts2 = load_data g attempts) := by
  refine ⟨?_, ?_, ?_, ?_⟩
  · simp [load_data, h]
  · simp [load_data, h]
  · simp [load_data, h]
  · intro attempts2 h2
    simp [load_data, h2]

/-- C8 witness: the failure theorem evaluated at a concrete failing attempt. -/
theorem c8_load_failure_witness :
    (load_data rng0 (fun _ => Except.error "boom")).1 = create_demo_data rng0 ∧
    Msg.error "boom" ∈ (load_data rng0 (fun _ => Except.error "boom")).2 :=
  ⟨(c8_load_failure rng0 (fun _ => Except.error "boom") "boom" rfl).1,
   (c8_load_failure rng0 (fun _ => Except.error "boom") "boom" rfl).2.2.1⟩

/-- C9: the guard on the average-order-value division is `> 0`, not `≠ 0`:
a Dataset with a negative customer total also yields 0, and the division
branch runs only for strictly positive customer totals. -/
theorem c9_negative_guard (df : Dataset) :
    (totalCustomers df < 0 → avg_order df = 0) ∧
    (¬ 0 < totalCustomers df → avg_order df = 0) := by
  constructor
  · intro h
    rw [avg_order, if_neg (by omega)]
  · intro h
    rw [avg_order, if_neg h]

/-- C9 witness: a one-row Dataset with customers = -5 has a negative customer
total and an average order value of 0. -/
theorem c9_negative_guard_witness :
    totalCustomers [rowNeg] < 0 ∧ avg_order [rowNeg] = 0 :=
  ⟨by decide, (c9_negative_guard [rowNeg]).1 (by decide)⟩

/-- C10: every synthetic row has customers in [80, 150] and sales at least
45000 + 100 * (its day index); hence every non-empty filtered view of the
synthetic Dataset has a strictly positive customer total, so the
average-order-value zero branch is unreachable on synthetic data. -/
theorem c10_synthetic_positive (g : Rng) (hg : g.Valid) :
    (∀ r ∈ create_demo_data g,
        80 ≤ r.customers ∧ r.customers ≤ 150 ∧ 45000 + 100 * (r.date : Int) ≤ r.sales) ∧
    (∀ p : Row → Bool, (create_demo_data g).filter p ≠ [] →
        0 < totalCustomers ((create_demo_data g).filter p) ∧
        avg_order ((create_demo_data g).filter p) =
          (totalSales ((create_demo_data g).filter p) : ℚ) /
            (totalCustomers ((create_demo_data g).filter p) : ℚ)) := by
  have hrow : ∀ r ∈ create_demo_data g,
      80 ≤ r.customers ∧ r.customers ≤ 150 ∧ 45000 + 100 * (r.date : Int) ≤ r.sales := by
    intro r hr
    rw [create_demo_data, List.mem_map] at hr
    obtain ⟨i, _, rfl⟩ := hr
    have hc := hg.2 i
    have hs := hg.1 i
    refine ⟨by simp; omega, by simp; omega, ?_⟩
    simp only
    have : (i : Int) * 100 = 100 * (i : Int) := by ring
    omega
  refine ⟨hrow, ?_⟩
  intro p hne
  have hpos : 0 < totalCustomers ((create_demo_data g).filter p) := by
    apply customers_sum_pos _ _ hne
    intro r hr
    have := (hrow r (List.mem_of_mem_filter hr)).1
    omega
  exact ⟨hpos, by rw [avg_order, if_pos hpos]⟩

/-- C10 witness: the theorem evaluated at the zero-noise oracle and the
all-true filter: the filtered synthetic Dataset is non-empty and its customer
total is strictly positive. -/
theorem c10_synthetic_positive_witness :
    Rng.Valid rng0 ∧ (create_demo_data rng0).filter (fun _ => true) ≠ [] ∧
    0 < totalCustomers ((create_demo_data rng0).filter (fun _ => true)) := by
  have hne : (create_demo_data rng0).filter (fun _ => true) ≠ [] := by
    simp [create_demo_data, numDemoDays]
  exact ⟨rng0_valid, hne,
    ((c10_synthetic_positive rng0 rng0_valid).2 (fun _ => true) hne).1⟩
